import Mathlib

/-
Verification of the QSTools request-dispatch layer: a shallow embedding of
`modules/qs/rest_foundation.py`, `modules/qs/util.py` and the request-handling
parts of `modules/qs/qs_api.py`, with theorems about response classification,
dict merging, logging, rate-limit hooks and cache bypass decisions.
-/

namespace QSTools

/-! ## Python dictionaries as association lists

A Python dict is modelled as an association list with string keys.
`Dict.getItem` models `d[k]` / `d.get(k)` (keys are unique in a real dict, so
first-match lookup is the dict lookup), and `Dict.setItem` models `d[k] = v`
(replace the existing binding, else append). -/

abbrev Dict (V : Type) := List (String × V)

def Dict.getItem {V : Type} (d : Dict V) (k : String) : Option V :=
  (d.find? (fun p => p.1 == k)).map Prod.snd

def Dict.setItem {V : Type} (d : Dict V) (k : String) (v : V) : Dict V :=
  match d with
  | [] => [(k, v)]
  | p :: rest => if p.1 == k then (k, v) :: rest else p :: Dict.setItem rest k v

/-- `dict(pairs)` on a list of key/value pairs: successive assignment into an
initially empty dict, so a later pair with the same key wins. -/
def dictFromPairs {V : Type} (ps : List (String × V)) : Dict V :=
  ps.foldl (fun d p => Dict.setItem d p.1 p.2) []

/-- `qs.merge` from `util.py`: append every item of every argument dict into
one list (`merged`), then build a dict from it, so args to the right get
precedence over args to the left, just like the builtin `dict()`. -/
def merge {V : Type} (args : List (Dict V)) : Dict V :=
  dictFromPairs args.flatten

/-! ## Python values, exceptions, JSON -/

/-- Exceptions that the embedded code can raise. -/
inductive PyExc where
  | valueError
  | attributeError
  | typeError
  | keyError
  | unboundLocalError
deriving DecidableEq, Repr

/-- JSON values, as returned by `response.json()`. -/
inductive Json where
  | null
  | bool (b : Bool)
  | num (n : Int)
  | str (s : String)
  | arr (elems : List Json)
  | obj (fields : List (String × Json))

/-- Truthiness of a JSON-shaped Python value (`if cached:` on a record dict). -/
def Json.pyTruthy : Json → Bool
  | .null => false
  | .bool b => b
  | .num n => n != 0
  | .str s => !s.isEmpty
  | .arr l => !l.isEmpty
  | .obj kvs => !kvs.isEmpty

/-- `obj[k]` on a JSON value: KeyError when the key is absent from a dict,
TypeError when subscripting a non-dict. -/
def Json.getKey : Json → String → Except PyExc Json
  | .obj kvs, k =>
    match Dict.getItem kvs k with
    | some v => .ok v
    | none => .error .keyError
  | _, _ => .error .typeError

/-- `obj[k] = v` on a JSON value; TypeError on a non-dict. -/
def Json.setKey : Json → String → Json → Except PyExc Json
  | .obj kvs, k, v => .ok (.obj (Dict.setItem kvs k v))
  | _, _, _ => .error .typeError

/-- Truthiness of an optional boolean attribute (`if self.successful:` where
the attribute may still be `None`). -/
def pyTruthy : Option Bool → Bool
  | some b => b
  | none => false

/-- Values appearing in request params / headers / bodies. -/
inductive LVal where
  | s (v : String)
  | n (v : Nat)
deriving DecidableEq, Repr

/-! ## HTTP responses

The network transport (the `requests` library) is external: a response is
modelled as the status code, the raw body text, and the result of attempting
to parse the body as JSON (`jsonResult = none` models `response.json()`
raising `ValueError`). -/

structure Response where
  status_code : Nat
  text : String
  jsonResult : Option Json

/-- Truthiness of a `requests.Response` object (`if self.response:`): the
library defines `__bool__` as `self.ok`, i.e. status code below 400. -/
def Response.pyTruthy (resp : Response) : Bool :=
  resp.status_code < 400

/-! ## Observable events

Log calls and rate-limiter hook invocations are recorded as an event trace
instead of performed as side effects. -/

inductive LogLevel where
  | info
  | warning
  | error
  | critical
deriving DecidableEq, Repr

inductive LogPhase where
  | request
  | response
deriving DecidableEq, Repr

inductive Event where
  | log (lvl : LogLevel) (phase : LogPhase)
  | registerRequest (url : String)
  | send (verb : String) (url : String)
  | registerResponse (resp : Response)

def Event.isLog : Event → Bool
  | .log _ _ => true
  | _ => false

def Event.isNet : Event → Bool
  | .log _ _ => false
  | _ => true

/-! ## RestRequest (`rest_foundation.py`) -/

/-- The class-level static attributes of a `RestRequest` subclass
(`base_url`, `base_params`, `base_request_data`, `base_headers`). -/
structure RestBase where
  base_url : String := ""
  base_params : Dict LVal := []
  base_request_data : Dict LVal := []
  base_headers : Dict LVal := []

structure RestRequest where
  description : String
  uri : String
  base_url : String
  base_params : Dict LVal
  base_request_data : Dict LVal
  base_headers : Dict LVal
  params : Dict LVal
  request_data : Dict LVal
  headers : Dict LVal
  silent : Bool
  critical : Bool
  verb : String
  api_key : Option String
  response : Option Response
  data : Option Json
  successful : Option Bool

/-- `RestRequest.__init__(description, uri, **kwargs)`: request-specific dicts
start empty, `silent` is `True if kwargs.get('silent') is True else False`,
and the post-execution attributes `response`, `data`, `successful` start as
`None`.  `api_key` is only set later by `set_api_key`. -/
def RestRequest.init (base : RestBase) (description uri : String)
    (kwargsSilent : Option Bool) : RestRequest :=
  { description := description
    uri := uri
    base_url := base.base_url
    base_params := base.base_params
    base_request_data := base.base_request_data
    base_headers := base.base_headers
    params := []
    request_data := []
    headers := []
    silent := kwargsSilent == some true
    critical := false
    verb := "GET"
    api_key := none
    response := none
    data := none
    successful := none }

def RestRequest.set_api_key (r : RestRequest) (api_key : String) : RestRequest :=
  { r with api_key := some api_key
           params := Dict.setItem r.params "apiKey" (LVal.s api_key) }

def RestRequest._full_url (r : RestRequest) : String :=
  r.base_url ++ r.uri

def RestRequest._full_params (r : RestRequest) : Dict LVal :=
  merge [r.base_params, r.params]

def RestRequest._full_data (r : RestRequest) : Dict LVal :=
  merge [r.base_request_data, r.request_data]

def RestRequest._full_headers (r : RestRequest) : Dict LVal :=
  merge [r.base_headers, r.headers]

/-- `self.response.status_code == 200`; attribute access on the optional
response, only invoked once the response has been assigned. -/
def RestRequest._get_successful (r : RestRequest) : Option Bool :=
  r.response.map (fun resp => resp.status_code == 200)

/-- `return self.response.json() if self.successful else {}` — raises the JSON
parse error (`ValueError`) when `successful` is truthy but the body is not
parseable JSON. -/
def RestRequest._get_data (r : RestRequest) : Except PyExc Json :=
  if pyTruthy r.successful then
    match r.response with
    | some resp =>
      match resp.jsonResult with
      | some j => .ok j
      | none => .error .valueError
    | none => .error .attributeError
  else
    .ok (Json.obj [])

def RestRequest._log_before (r : RestRequest) : List Event :=
  if r.silent then [] else [Event.log .info .request]

def RestRequest._log_after (r : RestRequest) : List Event :=
  if r.silent then []
  else if pyTruthy r.successful then [Event.log .info .response]
  else if r.critical then [Event.log .critical .response]
  else [Event.log .error .response]

/-- Values appearing in the structured log dict of `_log_dict`. -/
inductive LogVal where
  | s (v : String)
  | n (v : Nat)
  | b (v : Bool)
  | j (v : Json)
  | lv (v : Dict LVal)
  | pynone

def optBoolVal : Option Bool → LogVal
  | some b => .b b
  | none => .pynone

def optJsonVal : Option Json → LogVal
  | some j => .j j
  | none => .pynone

/-- `RestRequest._log_dict`: the dict-based description of the request. The
status-code block is guarded by `if self.response:` (library truthiness, i.e.
status below 400); the failure-diagnostics block is guarded by
`if self.successful is False:` and records the parsed response JSON, or the
string marker when the body is unparseable. -/
def RestRequest._log_dict (r : RestRequest) : Dict LogVal :=
  let desc : Dict LogVal :=
    [("URI", .s r.uri),
     ("full URI", .s r._full_url),
     ("params", .lv r._full_params),
     ("request body", .lv r._full_data),
     ("headers", .lv r._full_headers),
     ("verb", .s r.verb)]
  let desc :=
    match r.response with
    | some resp =>
      if resp.pyTruthy then
        desc ++ [("HTTP status code", .n resp.status_code),
                 ("successful", optBoolVal r.successful),
                 ("response data", optJsonVal r.data)]
      else desc
    | none => desc
  if r.successful == some false then
    match r.response with
    | some resp =>
      desc ++ [("response body", .s resp.text),
               ("response JSON",
                 match resp.jsonResult with
                 | some j => .j j
                 | none => .s "Invalid JSON")]
    | none => desc
  else desc

/-- `RestRequest.make_request`, with the network transport's reply passed in
as `netResp`.  Returns the trace of log calls and rate-limiter hook
invocations, the final state of the request object (Python mutates the object
in place, so the state survives even when an exception propagates), and the
returned data or the propagated exception.  `_before_request` and
`_after_response` are no-op hooks in the base class. -/
def RestRequest.make_request (r0 : RestRequest) (netResp : Response) :
    List Event × RestRequest × Except PyExc Json :=
  let beforeEvs := r0._log_before
  let hookEvs := [Event.registerRequest r0._full_url,
                  Event.send r0.verb r0._full_url,
                  Event.registerResponse netResp]
  let r1 := { r0 with response := some netResp }
  let r2 := { r1 with successful := r1._get_successful }
  match r2._get_data with
  | .error e => (beforeEvs ++ hookEvs, r2, .error e)
  | .ok d =>
    let r3 := { r2 with data := some d }
    let afterEvs := r3._log_after
    (beforeEvs ++ hookEvs ++ afterEvs, r3, .ok d)

/-! ## QSAPIWrapper request plumbing (`qs_api.py`) -/

/-- A `QSRequest` (class in the repository's request module, whose file is not
under src/): per usage in `qs_api.py` it is a `RestRequest` that additionally
carries a `fields` list appended to by callers. -/
structure QSRequest extends RestRequest where
  fields : List String

/-- Modelled from the spec: `QSRequest` construction (the request module is
not under src/) — a RequestDescriptor created fresh per call, initialised like
`RestRequest` with an empty `fields` list. -/
def mkQSRequest (base : RestBase) (description uri : String)
    (kwargsSilent : Option Bool) : QSRequest :=
  { toRestRequest := RestRequest.init base description uri kwargsSilent
    fields := [] }

/-- Modelled from the spec: the process-wide API key store (`qs.api_keys`, not
under src/) maps composite key paths to API keys; `set(key_path, api_key)`
binds the path to the key. -/
abbrev KeyStore := List (List String × String)

def keyStoreSet (store : KeyStore) (path : List String) (key : String) : KeyStore :=
  match store with
  | [] => [(path, key)]
  | p :: rest => if p.1 = path then (path, key) :: rest else p :: keyStoreSet rest path key

/-- One invocation of the key store's `set` operation. -/
structure KeyStoreOp where
  path : List String
  key : String
deriving DecidableEq, Repr

structure QSAPIWrapper where
  server : String
  schoolcode : String
  api_key : String

def QSAPIWrapper._api_key_store_key_path (w : QSAPIWrapper) : List String :=
  ["qs", w.server, w.schoolcode]

/-- `fields` may arrive as a single string or a list of strings. -/
inductive Fields where
  | str (s : String)
  | list (l : List String)

def Fields.truthy : Fields → Bool
  | .str s => !s.isEmpty
  | .list l => !l.isEmpty

/-- `if str(fields) == fields: fields = [fields]` — a string is wrapped into a
one-element list. -/
def Fields.toList : Fields → List String
  | .str s => [s]
  | .list l => l

/-- The kwargs read by `QSAPIWrapper._make_request`. -/
structure MakeReqKwargs where
  critical : Option Bool := none
  fields : Option Fields := none

/-- The preparation half of `QSAPIWrapper._make_request` (lines before
`request.make_request()`): set the API key, honour the `critical` kwarg, and
append the `fields` kwarg (a string is first wrapped into a list). -/
def QSAPIWrapper._make_request_prep (w : QSAPIWrapper) (req : QSRequest)
    (kwargs : MakeReqKwargs) : QSRequest :=
  let req := { req with toRestRequest := req.toRestRequest.set_api_key w.api_key }
  let req := if pyTruthy kwargs.critical then { req with critical := true } else req
  match kwargs.fields with
  | some f => if f.truthy then { req with fields := req.fields ++ f.toList } else req
  | none => req

/-- Result of `QSAPIWrapper._make_request`: the final request object, the
returned `request.data` (or a propagated exception), the key store afterwards,
and the `set` operations invoked on it. -/
structure MakeReqOut where
  req : QSRequest
  result : Except PyExc (Option Json)
  store : KeyStore
  ops : List KeyStoreOp

/-- `QSAPIWrapper._make_request`: prepare the request, run it (`run` stands
for `request.make_request()`, whose network execution is external), and
persist the API key into the key store only when the completed request is
successful; then return `request.data`. -/
def QSAPIWrapper._make_request (w : QSAPIWrapper) (store : KeyStore)
    (req : QSRequest) (kwargs : MakeReqKwargs)
    (run : QSRequest → QSRequest × Except PyExc Json) : MakeReqOut :=
  let prepped := w._make_request_prep req kwargs
  match run prepped with
  | (req2, .error e) => ⟨req2, .error e, store, []⟩
  | (req2, .ok _) =>
    if pyTruthy req2.successful then
      ⟨req2, .ok req2.data,
       keyStoreSet store w._api_key_store_key_path w.api_key,
       [⟨w._api_key_store_key_path, w.api_key⟩]⟩
    else
      ⟨req2, .ok req2.data, store, []⟩

/-- `QSAPIWrapper._make_single_request` (identifier already cleaned by the
`clean_arg` decorator): look the identifier up in the bulk accessor's by-id
view; on a truthy cached record return it, otherwise fetch the single
resource over the network (`fetchSingle` stands for building and making the
`{base_uri}/{identifier}` request).  The third component of the result records
whether the network single-fetch branch ran; note that no branch adds the
fetched record to the cache. -/
def _make_single_request {C : Type} (request_all : C → Dict Json × C)
    (fetchSingle : String → Json) (identifier : String) (cache : C) :
    Json × C × Bool :=
  let res := request_all cache
  match Dict.getItem res.1 identifier with
  | some cached =>
    if cached.pyTruthy then (cached, res.2, false)
    else (fetchSingle identifier, res.2, true)
  | none => (fetchSingle identifier, res.2, true)

/-! ## Cache bypass decision (`_should_make_request`, `qs_api.py`) -/

/-- The kwargs read by `_should_make_request`; `cache.get(**kwargs)` receives
the whole bag. -/
structure ReqKwargs where
  use_cache : Option Bool := none
  fields : Option Fields := none
  cache_filter : Option (Dict LVal) := none

/-- The cache interface consumed by `_should_make_request` (the cache class
itself is not under src/): `has_fields` over a fields argument, and `get` over
the whole kwargs bag, returning `none` for no cached match. -/
structure CacheIface (α : Type) where
  has_fields : Fields → Bool
  get : ReqKwargs → Option α

/-- `_should_make_request(cache, **kwargs)`: request the network when the
caller disabled the cache, when requested fields are not all known to the
cache, or when the cached lookup yields no match. -/
def _should_make_request {α : Type} (cache : CacheIface α) (kwargs : ReqKwargs) :
    Bool :=
  let use_cache := kwargs.use_cache
  let fields := kwargs.fields
  let _cache_filter := kwargs.cache_filter
  if use_cache == some false then true
  else if (match fields with
           | some f => f.truthy && !(cache.has_fields f)
           | none => false) then true
  else if (cache.get kwargs).isNone then true
  else false

/-! ## post_section (`qs_api.py`) -/

/-- The `teacher_id` argument of `post_section`: a single teacher id or a list
of teacher ids. -/
inductive TeacherIdArg where
  | scalar (id : String)
  | list (ids : List String)

/-- `json.dumps` on a list of id strings. -/
def jsonDumpsList (l : List String) : String :=
  "[" ++ String.intercalate ", " (l.map (fun s => "\"" ++ s ++ "\"")) ++ "]"

/-- The request built by `post_section` once `teacher_ids = [teacher_id]` has
been bound on the non-list path: a POST to `/sections` with the
`smsAcademicSemesterId` fields param and the section body. -/
def post_section_request (base : RestBase) (section_name section_code class_id : String)
    (t : String) (credit_hours : Nat) (kwargsSilent : Option Bool) : QSRequest :=
  let teacher_ids := [t]
  let req := mkQSRequest base "POST new section" "/sections" kwargsSilent
  { req with
      verb := "POST"
      params := [("fields", LVal.s "smsAcademicSemesterId")]
      request_data := [("classId", LVal.s class_id),
                       ("sectionName", LVal.s section_name),
                       ("sectionCode", LVal.s section_code),
                       ("creditHours", LVal.n credit_hours),
                       ("teacherIds", LVal.s (jsonDumpsList teacher_ids))] }

/-- `QSAPIWrapper.post_section`: its first statement is
`teacher_ids = teacher_ids if type(teacher_id) is list else [teacher_id]`,
whose conditional evaluates the still-unbound local `teacher_ids` whenever
`teacher_id` is a list, raising `UnboundLocalError` before anything else
happens.  On the scalar path the request is built and made, and on a
successful request the response dict gains a `semesterId` key and is added to
the section cache (the list of cache adds is the second component of the
result). -/
def QSAPIWrapper.post_section (w : QSAPIWrapper) (store : KeyStore)
    (base : RestBase) (section_name section_code class_id : String)
    (teacher_id : TeacherIdArg) (credit_hours : Nat) (kwargs : MakeReqKwargs)
    (kwargsSilent : Option Bool)
    (run : QSRequest → QSRequest × Except PyExc Json) :
    Except PyExc (Option Json × List Json) × KeyStore :=
  match teacher_id with
  | .list _ => (.error .unboundLocalError, store)
  | .scalar t =>
    let req := post_section_request base section_name section_code class_id t
      credit_hours kwargsSilent
    let out := w._make_request store req kwargs run
    match out.result with
    | .error e => (.error e, out.store)
    | .ok response =>
      if out.req.successful == some true then
        match response with
        | none => (.error .typeError, out.store)
        | some j =>
          match j.getKey "smsAcademicSemesterId" with
          | .error e => (.error e, out.store)
          | .ok v =>
            match j.setKey "semesterId" v with
            | .error e => (.error e, out.store)
            | .ok j2 => (.ok (some j2, [j2]), out.store)
      else (.ok (response, []), out.store)

/-! ## Sample inputs used by witnesses -/

def sampleRestRequest : RestRequest :=
  RestRequest.init {} "GET sample" "/sample" none

/-- A status-200 response whose body is valid JSON. -/
def okJsonResp : Response :=
  { status_code := 200, text := "\x7b\"k\": \"v\"\x7d",
    jsonResult := some (Json.obj [("k", Json.str "v")]) }

/-- A status-200 response whose body is not parseable JSON. -/
def invalidJsonOkResp : Response :=
  { status_code := 200, text := "not json", jsonResult := none }

/-- A failed (status 500) response whose body is not parseable JSON. -/
def invalidJsonFailResp : Response :=
  { status_code := 500, text := "<html>oops</html>", jsonResult := none }

/-- A request with params on both the class level and the request level. -/
def mergeSampleReq : RestRequest :=
  { RestRequest.init
      { base_url := "https://api.example.com"
        base_params := [("apiKey", LVal.s "base-key"), ("page", LVal.n 1)] }
      "GET sample" "/x" none with
    params := [("apiKey", LVal.s "call-key")] }

/-! ## Dictionary lemmas -/

/-- Left-biased choice on options, used to state lookup in concatenations. -/
def firstSome {V : Type} : Option V → Option V → Option V
  | some v, _ => some v
  | none, o => o

theorem firstSome_assoc {V : Type} (a b c : Option V) :
    firstSome (firstSome a b) c = firstSome a (firstSome b c) := by
  cases a <;> rfl

theorem firstSome_none_right {V : Type} (a : Option V) : firstSome a none = a := by
  cases a <;> rfl

theorem getItem_nil {V : Type} (k : String) : Dict.getItem ([] : Dict V) k = none := rfl

theorem getItem_cons {V : Type} (p : String × V) (d : Dict V) (k : String) :
    Dict.getItem (p :: d) k = if p.1 == k then some p.2 else Dict.getItem d k := by
  simp only [Dict.getItem, List.find?]
  cases h : p.1 == k <;> simp [h]

theorem getItem_append {V : Type} (d1 d2 : Dict V) (k : String) :
    Dict.getItem (d1 ++ d2) k = firstSome (Dict.getItem d1 k) (Dict.getItem d2 k) := by
  induction d1 with
  | nil => simp [getItem_nil, firstSome]
  | cons p d ih =>
    rw [List.cons_append, getItem_cons, getItem_cons]
    cases h : p.1 == k
    · simp [ih, firstSome]
    · simp [firstSome]

theorem getItem_setItem {V : Type} (d : Dict V) (k : String) (v : V) (j : String) :
    Dict.getItem (Dict.setItem d k v) j = if j == k then some v else Dict.getItem d j := by
  induction d with
  | nil =>
    simp only [Dict.setItem, getItem_cons, getItem_nil]
    by_cases h : k = j
    · simp [h]
    · simp [h, Ne.symm h]
  | cons p d ih =>
    by_cases hpk : p.1 = k
    · have hset : Dict.setItem (p :: d) k v = (k, v) :: d := by
        simp [Dict.setItem, hpk]
      rw [hset, getItem_cons, getItem_cons]
      by_cases hjk : j = k
      · subst hjk
        simp [hpk]
      · have h1 : (k == j) = false := by simp [Ne.symm hjk]
        have h2 : (p.1 == j) = false := by simp [hpk, Ne.symm hjk]
        have h3 : (j == k) = false := by simp [hjk]
        simp [h1, h2, h3]
    · have hset : Dict.setItem (p :: d) k v = p :: Dict.setItem d k v := by
        simp [Dict.setItem, hpk]
      rw [hset, getItem_cons, ih, getItem_cons]
      by_cases hjk : j = k
      · subst hjk
        have h2 : (p.1 == j) = false := by simp [hpk]
        simp [h2]
      · simp [hjk]

/-- Lookup of the last binding of a key in a raw pair list: what `dict(pairs)`
maps the key to. -/
def lookupLast {V : Type} (ps : List (String × V)) (k : String) : Option V :=
  Dict.getItem ps.reverse k

theorem lookupLast_cons {V : Type} (p : String × V) (ps : List (String × V)) (k : String) :
    lookupLast (p :: ps) k
      = firstSome (lookupLast ps k) (if p.1 == k then some p.2 else none) := by
  unfold lookupLast
  rw [List.reverse_cons, getItem_append, getItem_cons, getItem_nil]

theorem lookupLast_append {V : Type} (l1 l2 : List (String × V)) (k : String) :
    lookupLast (l1 ++ l2) k = firstSome (lookupLast l2 k) (lookupLast l1 k) := by
  unfold lookupLast
  rw [List.reverse_append, getItem_append]

theorem getItem_foldl_setItem {V : Type} (ps : List (String × V)) (d : Dict V) (k : String) :
    Dict.getItem (ps.foldl (fun acc p => Dict.setItem acc p.1 p.2) d) k
      = firstSome (lookupLast ps k) (Dict.getItem d k) := by
  induction ps generalizing d with
  | nil => simp [lookupLast, getItem_nil, firstSome]
  | cons p ps ih =>
    rw [List.foldl_cons, ih, getItem_setItem, lookupLast_cons, firstSome_assoc]
    congr 1
    by_cases h : p.1 = k
    · subst h; simp [firstSome]
    · have h1 : (p.1 == k) = false := by simp [h]
      have h2 : (k == p.1) = false := by simp [Ne.symm h]
      simp [h1, h2, firstSome]

theorem getItem_dictFromPairs {V : Type} (ps : List (String × V)) (k : String) :
    Dict.getItem (dictFromPairs ps) k = lookupLast ps k := by
  unfold dictFromPairs
  rw [getItem_foldl_setItem, getItem_nil, firstSome_none_right]

theorem getItem_eq_none_of_not_mem {V : Type} (d : Dict V) (k : String)
    (h : k ∉ d.map Prod.fst) : Dict.getItem d k = none := by
  induction d with
  | nil => rfl
  | cons p d ih =>
    rw [getItem_cons]
    simp only [List.map_cons, List.mem_cons, not_or] at h
    have h1 : (p.1 == k) = false := by simp [Ne.symm h.1]
    simp [h1, ih h.2]

theorem lookupLast_eq_getItem_of_nodup {V : Type} (d : Dict V)
    (h : (d.map Prod.fst).Nodup) (k : String) :
    lookupLast d k = Dict.getItem d k := by
  induction d with
  | nil => rfl
  | cons p d ih =>
    rw [lookupLast_cons, getItem_cons]
    simp only [List.map_cons, List.nodup_cons] at h
    obtain ⟨hnm, hnd⟩ := h
    by_cases hp : p.1 = k
    · subst hp
      have hnone : Dict.getItem d p.1 = none := getItem_eq_none_of_not_mem d p.1 hnm
      have hl : lookupLast d p.1 = none := by rw [ih hnd, hnone]
      simp [hl, hnone, firstSome]
    · have h1 : (p.1 == k) = false := by simp [hp]
      simp [h1, firstSome_none_right, ih hnd]

/-- Two-dict instance of `merge`: the right-hand dict takes precedence
key-by-key, falling back to the left-hand dict. -/
theorem getItem_merge_two {V : Type} (b o : Dict V)
    (hb : (b.map Prod.fst).Nodup) (ho : (o.map Prod.fst).Nodup) (k : String) :
    Dict.getItem (merge [b, o]) k = firstSome (Dict.getItem o k) (Dict.getItem b k) := by
  unfold merge
  rw [getItem_dictFromPairs]
  have hfl : ([b, o] : List (Dict V)).flatten = b ++ o := by simp
  rw [hfl, lookupLast_append, lookupLast_eq_getItem_of_nodup o ho,
    lookupLast_eq_getItem_of_nodup b hb]

/-! ## Claim theorems -/

/-- C4: for every request whose param/body/header dicts have unique keys (as
Python dicts do), the merged params, body and headers used by the request map
each key to the call-specific (right-hand) binding when that dict contains
the key, and to the server-wide (left-hand) base binding otherwise. -/
theorem c4_merge_precedence (r : RestRequest) (k : String)
    (h1 : (r.base_params.map Prod.fst).Nodup) (h2 : (r.params.map Prod.fst).Nodup)
    (h3 : (r.base_request_data.map Prod.fst).Nodup)
    (h4 : (r.request_data.map Prod.fst).Nodup)
    (h5 : (r.base_headers.map Prod.fst).Nodup) (h6 : (r.headers.map Prod.fst).Nodup) :
    Dict.getItem r._full_params k
      = firstSome (Dict.getItem r.params k) (Dict.getItem r.base_params k)
    ∧ Dict.getItem r._full_data k
      = firstSome (Dict.getItem r.request_data k) (Dict.getItem r.base_request_data k)
    ∧ Dict.getItem r._full_headers k
      = firstSome (Dict.getItem r.headers k) (Dict.getItem r.base_headers k) :=
  ⟨getItem_merge_two _ _ h1 h2 k, getItem_merge_two _ _ h3 h4 k,
   getItem_merge_two _ _ h5 h6 k⟩

/-- Witness for C4 at a concrete request: the call-level `apiKey` overrides
the base one, while base-only keys fall through. -/
theorem c4_merge_precedence_witness :
    (Dict.getItem mergeSampleReq._full_params "apiKey"
        = firstSome (Dict.getItem mergeSampleReq.params "apiKey")
            (Dict.getItem mergeSampleReq.base_params "apiKey")
      ∧ Dict.getItem mergeSampleReq._full_data "apiKey"
        = firstSome (Dict.getItem mergeSampleReq.request_data "apiKey")
            (Dict.getItem mergeSampleReq.base_request_data "apiKey")
      ∧ Dict.getItem mergeSampleReq._full_headers "apiKey"
        = firstSome (Dict.getItem mergeSampleReq.headers "apiKey")
            (Dict.getItem mergeSampleReq.base_headers "apiKey"))
    ∧ Dict.getItem mergeSampleReq._full_params "apiKey" = some (LVal.s "call-key")
    ∧ Dict.getItem mergeSampleReq._full_params "page" = some (LVal.n 1) :=
  ⟨c4_merge_precedence mergeSampleReq "apiKey" (by decide) (by decide) (by decide)
    (by decide) (by decide) (by decide), by decide, by decide⟩

/-- C1: for every execution of `make_request` that completes, the request is
classified successful exactly when the HTTP status code is 200, and
afterwards `data` is the parsed JSON body on success and the empty dict (not
`None`) on failure. -/
theorem c1_success_classification (r : RestRequest) (resp : Response) (d : Json)
    (h : (r.make_request resp).2.2 = Except.ok d) :
    ((r.make_request resp).2.1).successful = some (resp.status_code == 200)
    ∧ ((r.make_request resp).2.1).data = some d
    ∧ ((r.make_request resp).2.1).data ≠ none
    ∧ (resp.status_code = 200 → resp.jsonResult = some d)
    ∧ (resp.status_code ≠ 200 → d = Json.obj []) := by
  unfold RestRequest.make_request at h ⊢
  by_cases hs : resp.status_code = 200
  · cases hj : resp.jsonResult with
    | none =>
      exfalso
      simp [RestRequest._get_data, RestRequest._get_successful, pyTruthy, hs, hj] at h
    | some j =>
      simp [RestRequest._get_data, RestRequest._get_successful, pyTruthy, hs, hj] at h ⊢
      simp [h]
  · have hb : (resp.status_code == 200) = false := by simp [hs]
    simp [RestRequest._get_data, RestRequest._get_successful, pyTruthy, hs, hb] at h ⊢
    simp [h]

/-- Witness for C1: a completed 200 execution parses the body, and a completed
404 execution yields the empty dict. -/
theorem c1_success_classification_witness :
    ((sampleRestRequest.make_request okJsonResp).2.1).successful
        = some (okJsonResp.status_code == 200)
    ∧ ((sampleRestRequest.make_request okJsonResp).2.1).data
        = some (Json.obj [("k", Json.str "v")])
    ∧ ((sampleRestRequest.make_request okJsonResp).2.1).data ≠ none
    ∧ (okJsonResp.status_code = 200
        → okJsonResp.jsonResult = some (Json.obj [("k", Json.str "v")]))
    ∧ (okJsonResp.status_code ≠ 200 → Json.obj [("k", Json.str "v")] = Json.obj []) :=
  c1_success_classification sampleRestRequest okJsonResp (Json.obj [("k", Json.str "v")]) rfl

/-- Counterexample to C2 as stated: at a concrete 200 response with an
unparseable body, `make_request` propagates the JSON `ValueError` to its
caller and leaves the request classified successful, instead of treating the
call as a failed request carrying the "Invalid JSON" marker. -/
theorem c2_counterexample :
    (sampleRestRequest.make_request invalidJsonOkResp).2.2
        = Except.error PyExc.valueError
    ∧ ((sampleRestRequest.make_request invalidJsonOkResp).2.1).successful
        = some true
    ∧ ((sampleRestRequest.make_request invalidJsonOkResp).2.1).data = none :=
  ⟨rfl, rfl, rfl⟩

/-- C2 (amended): when the HTTP status is 200 but the body is not parseable
JSON, `make_request` raises the parse error (`ValueError`) to its caller — the
request stays classified successful and `data` is left unset. The
"Invalid JSON" diagnostic marker appears in `_log_dict` for requests whose
`successful` is `False` and whose body is unparseable. -/
theorem c2_invalid_json_behaviour :
    (∀ (r : RestRequest) (resp : Response),
        resp.status_code = 200 → resp.jsonResult = none →
        (r.make_request resp).2.2 = Except.error PyExc.valueError
        ∧ ((r.make_request resp).2.1).successful = some true
        ∧ ((r.make_request resp).2.1).data = r.data)
    ∧ (∀ (r : RestRequest) (resp : Response),
        r.response = some resp → r.successful = some false → resp.jsonResult = none →
        Dict.getItem r._log_dict "response JSON" = some (LogVal.s "Invalid JSON")) := by
  constructor
  · intro r resp hs hj
    unfold RestRequest.make_request
    simp [RestRequest._get_data, RestRequest._get_successful, pyTruthy, hs, hj]
  · intro r resp hresp hsucc hj
    unfold RestRequest._log_dict
    rw [hresp, hsucc]
    have hfail : ((some false : Option Bool) == some false) = true := rfl
    rw [if_pos (by exact rfl)]
    cases hty : resp.pyTruthy <;>
      simp [hty, hj, getItem_append, getItem_cons, getItem_nil, firstSome]

/-- Witness for C2 (amended): both halves at concrete inputs — the raising 200
execution and the log dict of a concrete failed request. -/
theorem c2_invalid_json_behaviour_witness :
    ((sampleRestRequest.make_request invalidJsonOkResp).2.2
        = Except.error PyExc.valueError
      ∧ ((sampleRestRequest.make_request invalidJsonOkResp).2.1).successful
        = some true
      ∧ ((sampleRestRequest.make_request invalidJsonOkResp).2.1).data
        = sampleRestRequest.data)
    ∧ Dict.getItem
        ({ sampleRestRequest with
            response := some invalidJsonFailResp
            successful := some false })._log_dict "response JSON"
        = some (LogVal.s "Invalid JSON") :=
  ⟨c2_invalid_json_behaviour.1 sampleRestRequest invalidJsonOkResp rfl rfl,
   c2_invalid_json_behaviour.2 _ invalidJsonFailResp rfl rfl rfl⟩

/-- C5: for every completed execution, no log call is made when the request is
silent; otherwise the before-request log is `info`, and the after-response log
is `info` on success and `critical`/`error` on failure according to the
request's `critical` flag. -/
theorem c5_log_severity (r : RestRequest) (resp : Response) (d : Json)
    (h : (r.make_request resp).2.2 = Except.ok d) :
    (r.make_request resp).1.filter Event.isLog
      = if r.silent then []
        else [Event.log LogLevel.info LogPhase.request,
              Event.log (if resp.status_code == 200 then LogLevel.info
                         else if r.critical then LogLevel.critical
                         else LogLevel.error) LogPhase.response] := by
  unfold RestRequest.make_request at h ⊢
  by_cases hs : resp.status_code = 200
  · cases hj : resp.jsonResult with
    | none =>
      exfalso
      simp [RestRequest._get_data, RestRequest._get_successful, pyTruthy, hs, hj] at h
    | some j =>
      by_cases hsil : r.silent <;>
        simp [RestRequest._get_data, RestRequest._get_successful, pyTruthy, hs, hj,
          RestRequest._log_before, RestRequest._log_after, hsil, Event.isLog,
          List.filter_append, List.filter]
  · have hb : (resp.status_code == 200) = false := by simp [hs]
    by_cases hsil : r.silent <;> by_cases hc : r.critical <;>
      simp [RestRequest._get_data, RestRequest._get_successful, pyTruthy, hs, hb,
        RestRequest._log_before, RestRequest._log_after, hsil, hc, Event.isLog,
        List.filter_append, List.filter]

/-- Witness for C5: a concrete non-silent, non-critical request against a 404
response logs `info` before and `error` after. -/
theorem c5_log_severity_witness :
    (sampleRestRequest.make_request invalidJsonFailResp).1.filter Event.isLog
      = if sampleRestRequest.silent then []
        else [Event.log LogLevel.info LogPhase.request,
              Event.log (if invalidJsonFailResp.status_code == 200 then LogLevel.info
                         else if sampleRestRequest.critical then LogLevel.critical
                         else LogLevel.error) LogPhase.response] :=
  c5_log_severity sampleRestRequest invalidJsonFailResp (Json.obj []) rfl

/-- C7: every execution of `make_request` — completing or raising — invokes
`register_request` with the request's full URL before the network send and
`register_response` with the received response after it, each exactly once. -/
theorem c7_rate_limiter_hooks (r : RestRequest) (resp : Response) :
    (r.make_request resp).1.filter Event.isNet
      = [Event.registerRequest r._full_url, Event.send r.verb r._full_url,
         Event.registerResponse resp] := by
  unfold RestRequest.make_request
  by_cases hs : resp.status_code = 200
  · cases hj : resp.jsonResult <;>
      by_cases hsil : r.silent <;>
        simp [RestRequest._get_data, RestRequest._get_successful, pyTruthy, hs, hj,
          RestRequest._log_before, RestRequest._log_after, hsil, Event.isNet,
          List.filter_append, List.filter]
  · have hb : (resp.status_code == 200) = false := by simp [hs]
    by_cases hsil : r.silent <;> by_cases hc : r.critical <;>
      simp [RestRequest._get_data, RestRequest._get_successful, pyTruthy, hs, hb,
        RestRequest._log_before, RestRequest._log_after, hsil, hc, Event.isNet,
        List.filter_append, List.filter]

/-- C10: a freshly constructed `RestRequest` has `response`, `data` and
`successful` all `None`, and after `make_request` runs the `response`
attribute always holds the received response — so `response is not None` marks
exactly the requests that have been made. -/
theorem c10_fresh_request_invariant :
    (∀ (base : RestBase) (description uri : String) (silentKw : Option Bool),
        (RestRequest.init base description uri silentKw).response = none
        ∧ (RestRequest.init base description uri silentKw).data = none
        ∧ (RestRequest.init base description uri silentKw).successful = none)
    ∧ (∀ (r : RestRequest) (resp : Response),
        ((r.make_request resp).2.1).response = some resp) := by
  constructor
  · intro base description uri silentKw
    exact ⟨rfl, rfl, rfl⟩
  · intro r resp
    unfold RestRequest.make_request
    by_cases hs : resp.status_code = 200
    · cases hj : resp.jsonResult <;>
        simp [RestRequest._get_data, RestRequest._get_successful, pyTruthy, hs, hj]
    · have hb : (resp.status_code == 200) = false := by simp [hs]
      simp [RestRequest._get_data, RestRequest._get_successful, pyTruthy, hb]

/-- C3: `_should_make_request` returns true exactly when the caller passed
`use_cache=False`, or passed a non-empty `fields` argument not covered by
`cache.has_fields`, or `cache.get(**kwargs)` finds no cached match; otherwise
it returns false. -/
theorem c3_should_make_request_iff {α : Type} (cache : CacheIface α)
    (kwargs : ReqKwargs) :
    _should_make_request cache kwargs = true ↔
      kwargs.use_cache = some false
      ∨ (∃ f, kwargs.fields = some f ∧ f.truthy = true ∧ cache.has_fields f = false)
      ∨ cache.get kwargs = none := by
  unfold _should_make_request
  by_cases hu : kwargs.use_cache = some false
  · have h1 : (kwargs.use_cache == some false) = true := by simp [hu]
    simp [h1, hu]
  · have h1 : (kwargs.use_cache == some false) = false := by simp [hu]
    cases hf : kwargs.fields with
    | none => simp [h1, hu, hf, Option.isNone_iff_eq_none]
    | some f =>
      cases ht : f.truthy
      · simp [h1, hu, hf, ht, Option.isNone_iff_eq_none]
      · cases hhf : cache.has_fields f
        · simp [h1, hu, hf, ht, hhf]
        · simp [h1, hu, hf, ht, hhf, Option.isNone_iff_eq_none]

/-- C6: in `QSAPIWrapper._make_request`, the key store's `set` (with key path
`[qs, server, schoolcode]`) is invoked exactly once when the completed request
is successful, and the key store is left unchanged — with no `set` invoked —
when the request fails or its execution raises. -/
theorem c6_api_key_persist (w : QSAPIWrapper) (store : KeyStore) (req : QSRequest)
    (kwargs : MakeReqKwargs) (run : QSRequest → QSRequest × Except PyExc Json) :
    (∀ (req2 : QSRequest) (d : Json),
        run (w._make_request_prep req kwargs) = (req2, Except.ok d) →
        (pyTruthy req2.successful = true →
          (w._make_request store req kwargs run).store
            = keyStoreSet store w._api_key_store_key_path w.api_key
          ∧ (w._make_request store req kwargs run).ops
            = [⟨w._api_key_store_key_path, w.api_key⟩])
        ∧ (pyTruthy req2.successful = false →
          (w._make_request store req kwargs run).store = store
          ∧ (w._make_request store req kwargs run).ops = []))
    ∧ (∀ (req2 : QSRequest) (e : PyExc),
        run (w._make_request_prep req kwargs) = (req2, Except.error e) →
        (w._make_request store req kwargs run).store = store
        ∧ (w._make_request store req kwargs run).ops = []) := by
  constructor
  · intro req2 d hrun
    constructor
    · intro hsucc
      unfold QSAPIWrapper._make_request
      simp [hrun, hsucc]
    · intro hfail
      unfold QSAPIWrapper._make_request
      simp [hrun, hfail]
  · intro req2 e hrun
    unfold QSAPIWrapper._make_request
    simp [hrun]

def sampleWrapper : QSAPIWrapper :=
  { server := "live", schoolcode := "demo", api_key := "demo.key" }

def sampleQSRequest : QSRequest := mkQSRequest {} "GET students" "/students" none

/-- A request execution that completes successfully with an empty JSON body. -/
def sampleRunOk : QSRequest → QSRequest × Except PyExc Json :=
  fun q => ({ q with successful := some true, data := some (Json.obj []) },
    Except.ok (Json.obj []))

/-- Witness for C6 at a concrete successful run: exactly one `set`, with the
composite path, lands in the key store. -/
theorem c6_api_key_persist_witness :
    (QSAPIWrapper._make_request sampleWrapper [] sampleQSRequest {} sampleRunOk).store
      = keyStoreSet [] sampleWrapper._api_key_store_key_path sampleWrapper.api_key
    ∧ (QSAPIWrapper._make_request sampleWrapper [] sampleQSRequest {} sampleRunOk).ops
      = [⟨sampleWrapper._api_key_store_key_path, sampleWrapper.api_key⟩] :=
  ((c6_api_key_persist sampleWrapper [] sampleQSRequest {} sampleRunOk).1
    _ _ rfl).1 rfl

/-- C8: when the bulk accessor's by-id view has no entry for the identifier
(and leaves the cache as it found it), `_make_single_request` returns the
record fetched over the network, leaves the cache exactly as it was, and a
repeated call for the same identifier fetches over the network again. -/
theorem c8_uncached_single_fetch {C : Type} (request_all : C → Dict Json × C)
    (fetchSingle : String → Json) (identifier : String) (cache : C)
    (hpure : (request_all cache).2 = cache)
    (hmiss : Dict.getItem (request_all cache).1 identifier = none) :
    _make_single_request request_all fetchSingle identifier cache
      = (fetchSingle identifier, cache, true)
    ∧ _make_single_request request_all fetchSingle identifier
        ((_make_single_request request_all fetchSingle identifier cache).2.1)
      = (fetchSingle identifier, cache, true) := by
  have h1 : _make_single_request request_all fetchSingle identifier cache
      = (fetchSingle identifier, cache, true) := by
    unfold _make_single_request
    simp [hmiss, hpure]
  exact ⟨h1, by rw [h1]; exact h1⟩

/-- Witness for C8: an empty by-id cache view forces a network fetch, twice in
a row, with the cache unchanged. -/
theorem c8_uncached_single_fetch_witness :
    _make_single_request (fun c : Dict Json => (c, c))
        (fun s => Json.obj [("id", Json.str s)]) "7" ([] : Dict Json)
      = (Json.obj [("id", Json.str "7")], ([] : Dict Json), true)
    ∧ _make_single_request (fun c : Dict Json => (c, c))
        (fun s => Json.obj [("id", Json.str s)]) "7"
        ((_make_single_request (fun c : Dict Json => (c, c))
            (fun s => Json.obj [("id", Json.str s)]) "7" ([] : Dict Json)).2.1)
      = (Json.obj [("id", Json.str "7")], ([] : Dict Json), true) :=
  c8_uncached_single_fetch _ _ "7" [] rfl rfl

/-- C9: calling `post_section` with a list-valued `teacher_id` hits the
unbound local `teacher_ids` in the function's first statement and fails with
`UnboundLocalError` before any request is built or sent (for every possible
request execution, the result is the error and the key store is untouched),
while a scalar `teacher_id` is wrapped into a one-element list in the request
body. -/
theorem c9_post_section_list_crash :
    (∀ (w : QSAPIWrapper) (store : KeyStore) (base : RestBase)
        (section_name section_code class_id : String) (ids : List String)
        (credit_hours : Nat) (kwargs : MakeReqKwargs) (kwargsSilent : Option Bool)
        (run : QSRequest → QSRequest × Except PyExc Json),
        w.post_section store base section_name section_code class_id
            (TeacherIdArg.list ids) credit_hours kwargs kwargsSilent run
          = (Except.error PyExc.unboundLocalError, store))
    ∧ (∀ (base : RestBase) (section_name section_code class_id t : String)
        (credit_hours : Nat) (kwargsSilent : Option Bool),
        Dict.getItem (post_section_request base section_name section_code class_id t
            credit_hours kwargsSilent).request_data "teacherIds"
          = some (LVal.s (jsonDumpsList [t]))) := by
  constructor
  · intro w store base sn sc cid ids ch kwargs ks run
    rfl
  · intro base sn sc cid t ch ks
    rfl

end QSTools
